import Mathlib

/-!
Verification development for the SOCI index builder lambda handler
(`soci-index-generator-lambda/handler.go`).

The handler is embedded shallowly: every external call (registry session,
builder library, filesystem) is an oracle recorded in an `Env`, and the
handler is a pure function from the environment and the trigger event to a
`HandlerResult` carrying the returned message, the returned error (`none`
models Go's `nil`), and the trace of external calls performed.
-/

/-! ### Trigger event (events.ECRImageActionEvent, fields as used by handler.go) -/

structure EventDetail where
  actionType : String
  result : String
  repositoryName : String
  imageDigest : String
  imageTag : String
  deriving DecidableEq

structure ECRImageActionEvent where
  source : String
  account : String
  detailType : String
  region : String
  detail : EventDetail
  deriving DecidableEq

/-! ### Character classes used by the validation regular expressions -/

/-- The class `[-_+.]` of the image-digest pattern. -/
def isSepChar (c : Char) : Bool :=
  c = '-' || c = '_' || c = '+' || c = '.'

/-- The class `[A-Fa-f0-9]` of the image-digest pattern. -/
def isHexChar (c : Char) : Bool :=
  c.isDigit || ('a' ≤ c && c ≤ 'f') || ('A' ≤ c && c ≤ 'F')

/-- How many leading characters of the list are in `[A-Fa-f0-9]`. -/
def countLeadingHex : List Char → Nat
  | [] => 0
  | c :: rest => if isHexChar c then countLeadingHex rest + 1 else 0

/-! ### Go regexp semantics

`regexp.MatchString(pat, s)` reports whether the pattern matches anywhere in
`s` (an unanchored containment search).  Each validation pattern of
`validateEvent` is embedded as a decision procedure for exactly that
containment question. -/

/-- `regexp.MatchString("[0-9]{12}", s)` finds a match at a position exactly
when the 12 characters starting there are all decimal digits. -/
def twelveDigitsAt (l : List Char) : Bool :=
  decide ((l.take 12).length = 12) && (l.take 12).all Char.isDigit

/-- The unanchored search for `[0-9]{12}`: some suffix starts with 12 digits. -/
def accountSearch : List Char → Bool
  | [] => false
  | c :: rest => twelveDigitsAt (c :: rest) || accountSearch rest

/-- Embedding of `regexp.MatchString("[0-9]{12}", account)` from handler.go. -/
def accountIdMatch (s : String) : Bool :=
  accountSearch s.data

/-- Embedding of the repository-name check
`regexp.MatchString("(?:[a-z0-9]+(?:[._-][a-z0-9]+)*/)*[a-z0-9]+(?:[._-][a-z0-9]+)*", name)`.
The search is unanchored and the pattern's minimal match is one character of
the class `[a-z0-9]` (the final segment, with every optional part empty), and
every match contains such a character; so the search succeeds exactly when the
string contains a character in `[a-z0-9]`. -/
def repositoryNameMatch (s : String) : Bool :=
  s.data.any fun c => c.isLower || c.isDigit

/-- Embedding of the image-tag check
`regexp.MatchString("[A-Za-z0-9_][A-Za-z0-9_.-]{0,127}", tag)`.  Unanchored,
and the minimal match is one character of `[A-Za-z0-9_]` (the `{0,127}` part
may be empty); every match starts with such a character, so the search
succeeds exactly when the string contains a character in `[A-Za-z0-9_]`. -/
def imageTagMatch (s : String) : Bool :=
  s.data.any fun c => c.isAlphanum || c = '_'

/-- One deterministic state of the image-digest pattern
`[[A-Za-z][A-Za-z0-9]*(?:[-_+.][A-Za-z][A-Za-z0-9]*)*[:][A-Fa-f0-9]{32,}`:
after the leading character the matcher is inside `[A-Za-z0-9]*`
(`expectAlpha = false`), or just consumed a separator of `[-_+.]` and must see
`[A-Za-z]` next (`expectAlpha = true`).  The three continuations — another
alphanumeric, a separator, the final `[:]` — consume pairwise disjoint
character classes, so the pattern is matched without backtracking. -/
def digestRun : Bool → List Char → Bool
  | _, [] => false
  | true, d :: rest => if d.isAlpha then digestRun false rest else false
  | false, c :: rest =>
    if c = ':' then decide (32 ≤ countLeadingHex rest)
    else if c.isAlpha || c.isDigit then digestRun false rest
    else if isSepChar c then digestRun true rest
    else false

/-- Does the image-digest pattern match starting exactly at the head?  The
first character class of the pattern is `[[A-Za-z]`, i.e. a literal `[` or an
ASCII letter. -/
def digestMatchAt : List Char → Bool
  | [] => false
  | c :: rest => if c = '[' || c.isAlpha then digestRun false rest else false

/-- The unanchored search for the image-digest pattern: a match starts at some
position of the string. -/
def digestSearch : List Char → Bool
  | [] => false
  | c :: rest => digestMatchAt (c :: rest) || digestSearch rest

/-- Embedding of `regexp.MatchString("[[A-Za-z][A-Za-z0-9]*(?:[-_+.][A-Za-z][A-Za-z0-9]*)*[:][A-Fa-f0-9]{32,}", digest)`. -/
def imageDigestMatch (s : String) : Bool :=
  digestSearch s.data

/-! ### validateEvent (handler.go lines 156-227) -/

/-- The result of `validateEvent`: the ordered violation list and the context
values it writes (`RepositoryNameKey`, `ImageDigestKey`, `ImageTagKey`). -/
structure ValidationResult where
  violations : List String
  ctxRepo : Option String
  ctxDigest : Option String
  ctxTag : Option String
  deriving DecidableEq

/-- Embedding of `validateEvent`.  Violations are appended in the source's
order; a context value is written exactly when the corresponding pattern check
succeeds (the tag additionally only when it is non-empty).  The
`regexp.MatchString` error branches of the source are unreachable (each
pattern is a fixed valid pattern) and are not modelled. -/
def validateEvent (ev : ECRImageActionEvent) : ValidationResult :=
  { violations :=
      (if ev.source = "aws.ecr" then [] else ["the event's 'source' must be 'aws.ecr'"])
      ++ (if ev.account = "" then ["the event's 'account' must not be empty"] else [])
      ++ (if ev.detailType = "ECR Image Action" then []
          else ["the event's 'detail-type' must be 'ECR Image Action'"])
      ++ (if ev.detail.actionType = "PUSH" then []
          else ["the event's 'detail.action-type' must be 'PUSH'"])
      ++ (if ev.detail.result = "SUCCESS" then []
          else ["the event's 'detail.result' must be 'SUCCESS'"])
      ++ (if ev.detail.repositoryName = "" then ["the event's 'detail.repository-name' must not be empty"] else [])
      ++ (if ev.detail.imageDigest = "" then ["the event's 'detail.image-digest' must not be empty"] else [])
      ++ (if accountIdMatch ev.account then []
          else ["the event's 'account' must be a valid AWS account ID"])
      ++ (if repositoryNameMatch ev.detail.repositoryName then []
          else ["the event's 'detail.repository-name' must be a valid repository name"])
      ++ (if imageDigestMatch ev.detail.imageDigest then []
          else ["the event's 'detail.image-digest' must be a valid image digest"])
      ++ (if ev.detail.imageTag = "" then []
          else if imageTagMatch ev.detail.imageTag then []
          else ["the event's 'detail.image-tag' must be empty or a valid image tag"]),
    ctxRepo :=
      if repositoryNameMatch ev.detail.repositoryName then some ev.detail.repositoryName else none,
    ctxDigest :=
      if imageDigestMatch ev.detail.imageDigest then some ev.detail.imageDigest else none,
    ctxTag :=
      if ev.detail.imageTag ≠ "" && imageTagMatch ev.detail.imageTag then some ev.detail.imageTag
      else none }

/-- Embedding of `buildEcrRegistryUrl` (handler.go lines 230-236). -/
def buildEcrRegistryUrl (ev : ECRImageActionEvent) : String :=
  ev.account ++ ".dkr.ecr." ++ ev.region
    ++ (if ev.region.startsWith "cn" then ".amazonaws.com.cn" else ".amazonaws.com")

/-! ### The handler pipeline (handler.go lines 36-153 and 314-374)

External collaborators (registry session, builder library, filesystem) are
oracles in `Env`; errors are their `Error()` strings. -/

/-- `ErrEmptyIndex` (handler.go line 38), as its `Error()` string. -/
def ErrEmptyIndex : String :=
  "no ztocs created, all layers either skipped or produced errors"

def BuildFailedMessage : String := "SOCI index build error"

def PushFailedMessage : String := "SOCI index push error"

def SkipPushOnEmptyIndexMessage : String :=
  "Skipping pushing SOCI index as it does not contain any zTOCs"

def BuildAndPushSuccessMessage : String := "Successfully built and pushed SOCI index"

/-- Identity of an OCI artifact, as the handler uses it (only the digest is
consulted). -/
structure Descriptor where
  digest : String
  deriving DecidableEq

/-- One record of `soci.GetIndexDescriptorCollection`: a descriptor and its
creation timestamp (`CreatedAt`, modelled in nanoseconds since the epoch, so
`time.Time.Before` is `<` on `Nat`). -/
structure IndexDescriptorInfo where
  descriptor : Descriptor
  createdAt : Nat
  deriving DecidableEq

/-- The external calls the handler can perform against the registry and the
builder library, recorded in the order they happen. -/
inductive Call where
  | registryInit
  | validateDigest
  | pull
  | buildV1
  | convert
  | push (repo : String) (tag : String)
  deriving DecidableEq

/-- The outcomes of every external call one invocation may perform, fixed
before the invocation runs (each oracle is consulted at most once). -/
structure Env where
  /-- `os.Getenv("soci_index_version")`. -/
  sociIndexVersion : String
  /-- `registryutils.Init(ctx, registryUrl)`. -/
  registryInit : Except String Unit
  /-- `registry.ValidateImageDigest(ctx, repo, digest, sociIndexVersion)`:
  `some e` when the check returns an error `e`, `none` on success. -/
  validateImageDigest : Option String
  /-- `createTempDir(ctx)`: the directory path, or the error. -/
  createTempDir : Except String String
  /-- `initSociStore(ctx, dataDir)`: `some e` on error. -/
  initSociStore : Option String
  /-- `soci.NewDB(artifactsDbPath)` inside `initSociArtifactsDb`. -/
  artifactsDb : Option String
  /-- `local.NewStore` inside `initContainerdStore`. -/
  containerdStore : Option String
  /-- `soci.NewIndexBuilder(...)`. -/
  builderNew : Option String
  /-- `registry.Pull(ctx, repo, sociStore, digest)`. -/
  pull : Except String Descriptor
  /-- `builder.Build(ctx, image, soci.WithPlatform(platform))` (V1): `Except.ok ()`
  on success (the returned index is read again from the store), or the error. -/
  build : Except String Unit
  /-- `soci.GetIndexDescriptorCollection(...)`: the matching records, or the error. -/
  getIndexDescriptorCollection : Except String (List IndexDescriptorInfo)
  /-- `builder.Convert(ctx, image)` (V2). -/
  convert : Except String Descriptor
  /-- `registry.Push(ctx, sociStore, *indexDescriptor, repo, tag)`: `some e` on error. -/
  push : Option String

/-- Modelled from the spec: `registry.ValidateImageDigest` lives in
`utils/registry`, which is not among the staged sources.  Per the spec it
"checks whether an index for this exact (repository, digest, version)
combination already exists in the registry; if so, returns a benign `already
processed` signal" — i.e. a non-nil error consumed upstream.  The outcome of
the check when an index is already published is therefore `some` error. -/
def validateImageDigestOutcome (alreadyPublished : Bool) : Option String :=
  if alreadyPublished then some "image already has a SOCI index for this version" else none

/-- Insertion step of the ascending sort of `sort.Slice(indexDescriptorInfos,
func(i, j) { return infos[i].CreatedAt.Before(infos[j].CreatedAt) })`. -/
def insertByCreatedAt (r : IndexDescriptorInfo) :
    List IndexDescriptorInfo → List IndexDescriptorInfo
  | [] => [r]
  | s :: rest =>
    if r.createdAt < s.createdAt then r :: s :: rest else s :: insertByCreatedAt r rest

/-- The records sorted ascending by creation timestamp (the postcondition of
`sort.Slice` with the `CreatedAt.Before` comparator). -/
def sortByCreatedAt : List IndexDescriptorInfo → List IndexDescriptorInfo
  | [] => []
  | r :: rest => insertByCreatedAt r (sortByCreatedAt rest)

/-- `l.getLast` for the non-empty list `x :: l`: the element
`indexDescriptorInfos[len(indexDescriptorInfos)-1]`. -/
def lastOf (x : α) : List α → α
  | [] => x
  | y :: ys => lastOf y ys

/-- Embedding of `buildIndex` (handler.go lines 315-368), returning the
descriptor or the error string, together with the builder calls made.
Go's `fmt.Errorf("...: %w", err)` produces the message `"...: " + err.Error()`. -/
def buildIndex (env : Env) : Except String Descriptor × List Call :=
  match env.artifactsDb with
  | some e => (Except.error e, [])
  | none =>
  match env.containerdStore with
  | some e => (Except.error e, [])
  | none =>
  match env.builderNew with
  | some e => (Except.error e, [])
  | none =>
  if env.sociIndexVersion = "V2" then
    match env.convert with
    | Except.error e => (Except.error ("failed to convert OCI index: " ++ e), [Call.convert])
    | Except.ok d => (Except.ok d, [Call.convert])
  else
    match env.build with
    | Except.error e => (Except.error ("failed to build SOCI index: " ++ e), [Call.buildV1])
    | Except.ok _ =>
    match env.getIndexDescriptorCollection with
    | Except.error e => (Except.error e, [Call.buildV1])
    | Except.ok recs =>
      match sortByCreatedAt recs with
      | [] => (Except.error "no SOCI indices found in OCI store", [Call.buildV1])
      | r :: rest => (Except.ok (lastOf r rest).descriptor, [Call.buildV1])

/-- The handler's return value — the message, the returned error (`none` is
Go's `nil`) — together with the trace of external calls performed. -/
structure HandlerResult where
  message : String
  error : Option String
  trace : List Call
  deriving DecidableEq

/-- `lambdaError` (handler.go lines 371-374): logs and returns the pair
`(msg, err)` with `err` non-nil.  The trace is the calls made so far. -/
def lambdaError (msg : String) (e : String) (tr : List Call) : HandlerResult :=
  { message := msg, error := some e, trace := tr }

/-- The tail of `HandleRequest` from `createTempDir` (line 106) to the end:
the part reached once validation, registry init, the idempotency check and the
V2 tag gate have all passed.  `tag` is the tag later handed to `Push` (the Go
zero value `""` under V1, the derived `tag + "-soci"` under V2). -/
def afterTagGate (env : Env) (ev : ECRImageActionEvent) (tag : String) : HandlerResult :=
  match env.createTempDir with
  | Except.error e => lambdaError "Directory create error" e [Call.registryInit, Call.validateDigest]
  | Except.ok _dataDir =>
  match env.initSociStore with
  | some e => lambdaError "OCI storage initialization error" e [Call.registryInit, Call.validateDigest]
  | none =>
  match env.pull with
  | Except.error e => lambdaError "Image pull error" e [Call.registryInit, Call.validateDigest, Call.pull]
  | Except.ok _desc =>
  match buildIndex env with
  | (Except.error e, bc) =>
    if e = ErrEmptyIndex then
      { message := SkipPushOnEmptyIndexMessage, error := none,
        trace := [Call.registryInit, Call.validateDigest, Call.pull] ++ bc }
    else lambdaError BuildFailedMessage e ([Call.registryInit, Call.validateDigest, Call.pull] ++ bc)
  | (Except.ok _idx, bc) =>
  match env.push with
  | some e =>
    lambdaError PushFailedMessage e
      ([Call.registryInit, Call.validateDigest, Call.pull] ++ bc
        ++ [Call.push ev.detail.repositoryName tag])
  | none =>
    { message := BuildAndPushSuccessMessage, error := none,
      trace := [Call.registryInit, Call.validateDigest, Call.pull] ++ bc
        ++ [Call.push ev.detail.repositoryName tag] }

/-- Embedding of `HandleRequest` (handler.go lines 64-153).  The stages appear
in the source's order: `validateEvent`, `registryutils.Init`,
`registry.ValidateImageDigest` (any error there returns a `nil` error to skip
retries), the V2 tag gate, then `afterTagGate` for the rest of the pipeline. -/
def HandleRequest (env : Env) (ev : ECRImageActionEvent) : HandlerResult :=
  match (validateEvent ev).violations with
  | e :: _ => lambdaError "ECRImageActionEvent validation error" e []
  | [] =>
  match env.registryInit with
  | Except.error e => lambdaError "Remote registry initialization error" e [Call.registryInit]
  | Except.ok _ =>
  match env.validateImageDigest with
  | some _ =>
    { message := "Exited early due to manifest validation error", error := none,
      trace := [Call.registryInit, Call.validateDigest] }
  | none =>
  if env.sociIndexVersion = "V2" then
    match (validateEvent ev).ctxTag with
    | none =>
      { message := "Skipped SOCI index generation for V2 as image has no tag", error := none,
        trace := [Call.registryInit, Call.validateDigest] }
    | some t =>
      if t = "" then
        { message := "Skipped SOCI index generation for V2 as image has no tag", error := none,
          trace := [Call.registryInit, Call.validateDigest] }
      else afterTagGate env ev (t ++ "-soci")
  else afterTagGate env ev ""

/-! ### The deadline watchdog (handler.go lines 256-285)

`setDeadline` arms a timer for the invocation deadline minus 10 seconds and
starts a goroutine selecting between the timer and the quit channel.  The
goroutine is embedded as a function of the order in which its two signals
arrive: it reacts to whichever comes first and returns. -/

/-- The side effects of the watchdog goroutine: `cleanUp` (removal of the
workspace directory, line 277) and the fatal `"Invocation timeout error"` log
record (line 278). -/
inductive WatchdogEffect where
  | removeAll (dir : String)
  | logTimeoutError
  deriving DecidableEq

/-- The two signals the goroutine's `select` waits on. -/
inductive WatchdogSignal where
  | timeout
  | quit
  deriving DecidableEq

/-- The timer instant of `setDeadline`: `deadline.Add(-10 * time.Second)`,
in seconds. -/
def setDeadlineArm (deadlineSeconds : Int) : Int :=
  deadlineSeconds - 10

/-- The watchdog goroutine's behaviour, as a function of the arrival order of
its signals: on `timeout` it runs `cleanUp(ctx, dataDir)` and logs the fatal
invocation-timeout record, then returns; on `quit` it returns at once; it does
nothing until a signal arrives. -/
def watchdogRun (dir : String) : List WatchdogSignal → List WatchdogEffect
  | [] => []
  | WatchdogSignal.timeout :: _ => [WatchdogEffect.removeAll dir, WatchdogEffect.logTimeoutError]
  | WatchdogSignal.quit :: _ => []

/-! ### The spec's whole-string digest grammar

Stated from the spec's words for comparison with the source's check: the
digest "matches `<algorithm>:<hex>` with the hex portion at least 32
characters", read as a grammar for the whole string — some split at a `:`
leaves a non-empty algorithm part and a hex-only remainder of length ≥ 32. -/

def specDigestGrammar (l : List Char) : Bool :=
  (List.range l.length).any fun i =>
    decide (0 < i) && (l.get? i == some ':')
      && decide (32 ≤ l.length - (i + 1)) && (l.drop (i + 1)).all isHexChar

/-! ### Concrete fixtures -/

/-- A fully valid trigger event (scenario A of the spec): repository `myrepo`,
a sha256 digest with 64 hex characters, tag `latest`. -/
def evValid : ECRImageActionEvent :=
  { source := "aws.ecr", account := "123456789012", detailType := "ECR Image Action",
    region := "us-east-1",
    detail := { actionType := "PUSH", result := "SUCCESS", repositoryName := "myrepo",
                imageDigest := "sha256:" ++ String.mk (List.replicate 64 'a'),
                imageTag := "latest" } }

/-- The valid event with an empty (absent) image tag. -/
def evNoTag : ECRImageActionEvent :=
  { evValid with detail := { evValid.detail with imageTag := "" } }

/-- The valid event with a wrong `source` field. -/
def evBadSource : ECRImageActionEvent :=
  { evValid with source := "aws.s3" }

/-- The valid event with a 13-digit account id. -/
def evAccount13 : ECRImageActionEvent :=
  { evValid with account := "1234567890123" }

/-- The valid event with a digest whose hex portion has exactly 32 characters. -/
def evDigest32 : ECRImageActionEvent :=
  { evValid with detail :=
    { evValid.detail with imageDigest := "sha256:" ++ String.mk (List.replicate 32 'a') } }

/-- The valid event with a digest whose hex portion has 31 characters. -/
def evDigest31 : ECRImageActionEvent :=
  { evValid with detail :=
    { evValid.detail with imageDigest := "sha256:" ++ String.mk (List.replicate 31 'a') } }

/-- The valid event with a digest that is not of the whole-string
`<algorithm>:<hex>` shape (three trailing `!`), yet contains a matching
substring. -/
def evDigestJunk : ECRImageActionEvent :=
  { evValid with detail :=
    { evValid.detail with
        imageDigest := "sha256:" ++ String.mk (List.replicate 32 'a') ++ "!!!" } }

/-- An environment in which every external call succeeds, under the legacy V1
strategy, with one historical index record. -/
def envOkV1 : Env :=
  { sociIndexVersion := "V1", registryInit := Except.ok (), validateImageDigest := none,
    createTempDir := Except.ok "/tmp/req-1", initSociStore := none, artifactsDb := none,
    containerdStore := none, builderNew := none,
    pull := Except.ok { digest := "sha256:img" },
    build := Except.ok (),
    getIndexDescriptorCollection := Except.ok [{ descriptor := { digest := "sha256:idx" }, createdAt := 3 }],
    convert := Except.ok { digest := "sha256:converted" }, push := none }

/-- The all-success environment under the converted V2 strategy. -/
def envV2 : Env :=
  { envOkV1 with sociIndexVersion := "V2" }

/-- The environment in which an index for this (repository, digest, version)
is already published, so the pre-build check reports the benign signal. -/
def envIdem : Env :=
  { envOkV1 with validateImageDigest := validateImageDigestOutcome true }

/-- The environment in which the pre-build check fails for an infrastructure
reason unrelated to idempotency. -/
def envManifestErr : Env :=
  { envOkV1 with validateImageDigest := some "registry throttled the manifest check" }

/-- The environment in which the V1 builder reports the named empty-index
condition. -/
def envEmptyIdx : Env :=
  { envOkV1 with build := Except.error ErrEmptyIndex }

/-- Two historical build records: an older one (timestamp 5) and a newer one
(timestamp 9). -/
def recsTwo : List IndexDescriptorInfo :=
  [{ descriptor := { digest := "sha256:older" }, createdAt := 5 },
   { descriptor := { digest := "sha256:newer" }, createdAt := 9 }]

/-- The all-success V1 environment whose metadata database holds the two
records of `recsTwo`. -/
def envTwoRecords : Env :=
  { envOkV1 with getIndexDescriptorCollection := Except.ok recsTwo }

/-! ### Shared lemmas -/

/-- When validation records at least one violation, `HandleRequest` returns
the fixed validation message together with the first violation as a non-nil
error, before any external call. -/
theorem handleRequest_of_violation (env : Env) (ev : ECRImageActionEvent)
    (e : String) (rest : List String)
    (h : (validateEvent ev).violations = e :: rest) :
    HandleRequest env ev = lambdaError "ECRImageActionEvent validation error" e [] := by
  unfold HandleRequest
  rw [h]

/-- When validation passes, registry initialization succeeds and the pre-build
manifest check returns any error, `HandleRequest` returns the fixed early-exit
message with a `nil` error, having performed no pull, build or push. -/
theorem handleRequest_manifest_error (env : Env) (ev : ECRImageActionEvent) (e : String)
    (hv : (validateEvent ev).violations = [])
    (hr : env.registryInit = Except.ok ())
    (hi : env.validateImageDigest = some e) :
    HandleRequest env ev =
      { message := "Exited early due to manifest validation error", error := none,
        trace := [Call.registryInit, Call.validateDigest] } := by
  unfold HandleRequest
  rw [hv, hr, hi]

/-! ### C1 — validation failures and the returned error -/

/-- C1 counterexample: for the event with the wrong `source`, `HandleRequest`
returns a non-nil error (the first validation violation), not a
nil-equivalent one, so the invoking infrastructure's retry policy applies. -/
theorem validation_error_is_not_nil_cex :
    (HandleRequest envOkV1 evBadSource).error = some "the event's 'source' must be 'aws.ecr'" ∧
    (HandleRequest envOkV1 evBadSource).error ≠ none := by
  constructor
  · rfl
  · decide

/-- C1 (amended): for every event that fails validation, `HandleRequest`
returns the fixed message `"ECRImageActionEvent validation error"` together
with the first recorded violation as a non-nil error, performing no external
call. -/
theorem validation_failure_returns_first_violation (env : Env) (ev : ECRImageActionEvent)
    (e : String) (rest : List String)
    (h : (validateEvent ev).violations = e :: rest) :
    HandleRequest env ev =
      { message := "ECRImageActionEvent validation error", error := some e, trace := [] } :=
  handleRequest_of_violation env ev e rest h

/-- C1 witness: the amended statement at the bad-source event. -/
theorem validation_failure_returns_first_violation_witness :
    HandleRequest envOkV1 evBadSource =
      { message := "ECRImageActionEvent validation error",
        error := some "the event's 'source' must be 'aws.ecr'", trace := [] } :=
  validation_failure_returns_first_violation envOkV1 evBadSource
    "the event's 'source' must be 'aws.ecr'" [] (by decide)

/-! ### C9 — wrong source is the first propagated violation -/

/-- C9: for every event whose `source` differs from `"aws.ecr"`, validation
fails with the source violation as the first recorded — and therefore
propagated — error, and `HandleRequest` performs no registry initialization,
pull, build or push call (its trace is empty). -/
theorem bad_source_rejected_without_side_effects (env : Env) (ev : ECRImageActionEvent)
    (h : ev.source ≠ "aws.ecr") :
    HandleRequest env ev =
      { message := "ECRImageActionEvent validation error",
        error := some "the event's 'source' must be 'aws.ecr'", trace := [] } := by
  apply handleRequest_of_violation env ev "the event's 'source' must be 'aws.ecr'"
    ((validateEvent ev).violations.tail)
  simp only [validateEvent]
  rw [if_neg h]
  rfl

/-- C9 witness: the statement at the bad-source event and the all-success
environment. -/
theorem bad_source_rejected_without_side_effects_witness :
    HandleRequest envV2 evBadSource =
      { message := "ECRImageActionEvent validation error",
        error := some "the event's 'source' must be 'aws.ecr'", trace := [] } :=
  bad_source_rejected_without_side_effects envV2 evBadSource (by decide)

/-! ### C10 — any pre-build manifest-check error exits early with a nil error -/

/-- C10: every error reported by the pre-build idempotency/manifest check —
whatever its cause — makes `HandleRequest` return the fixed message
`"Exited early due to manifest validation error"` with a `nil` error and no
pull, build or push call. -/
theorem manifest_check_error_never_retried (env : Env) (ev : ECRImageActionEvent) (e : String)
    (hv : (validateEvent ev).violations = [])
    (hr : env.registryInit = Except.ok ())
    (hi : env.validateImageDigest = some e) :
    HandleRequest env ev =
      { message := "Exited early due to manifest validation error", error := none,
        trace := [Call.registryInit, Call.validateDigest] } :=
  handleRequest_manifest_error env ev e hv hr hi

/-- C10 witness: an infrastructure failure of the manifest check (a throttled
registry) exits early with a nil error. -/
theorem manifest_check_error_never_retried_witness :
    HandleRequest envManifestErr evValid =
      { message := "Exited early due to manifest validation error", error := none,
        trace := [Call.registryInit, Call.validateDigest] } :=
  manifest_check_error_never_retried envManifestErr evValid
    "registry throttled the manifest check" (by decide) rfl rfl

/-! ### C3 — idempotency hit short-circuits the pipeline -/

/-- C3: when an index for the event's (repository, digest, version) is
already published, the pre-build check reports the benign signal and
`HandleRequest` returns the early-exit message with a `nil` error; its trace
holds only the registry initialization and the check itself — zero pull,
build or push calls. -/
theorem idempotency_hit_short_circuits (env : Env) (ev : ECRImageActionEvent)
    (hv : (validateEvent ev).violations = [])
    (hr : env.registryInit = Except.ok ())
    (hi : env.validateImageDigest = validateImageDigestOutcome true) :
    HandleRequest env ev =
      { message := "Exited early due to manifest validation error", error := none,
        trace := [Call.registryInit, Call.validateDigest] } ∧
    ∀ c ∈ (HandleRequest env ev).trace, c = Call.registryInit ∨ c = Call.validateDigest := by
  have hmain := handleRequest_manifest_error env ev
    "image already has a SOCI index for this version" hv hr hi
  refine ⟨hmain, ?_⟩
  rw [hmain]
  decide

/-- C3 witness: the statement at the valid event and the already-published
environment. -/
theorem idempotency_hit_short_circuits_witness :
    HandleRequest envIdem evValid =
      { message := "Exited early due to manifest validation error", error := none,
        trace := [Call.registryInit, Call.validateDigest] } ∧
    ∀ c ∈ (HandleRequest envIdem evValid).trace,
      c = Call.registryInit ∨ c = Call.validateDigest :=
  idempotency_hit_short_circuits envIdem evValid (by decide) rfl rfl

/-! ### C4 — the deadline watchdog race -/

/-- C4: the watchdog timer is armed for the deadline minus 10 seconds; if the
cancellation signal arrives first the watchdog exits with no side effects,
and if the timer fires first it removes the workspace directory and records
the fatal invocation-timeout log record, then exits. -/
theorem watchdog_race_behaviour :
    ∀ (deadline : Int) (dir : String) (sigs : List WatchdogSignal),
      setDeadlineArm deadline = deadline - 10 ∧
      (sigs.head? = some WatchdogSignal.quit → watchdogRun dir sigs = []) ∧
      (sigs.head? = some WatchdogSignal.timeout →
        watchdogRun dir sigs =
          [WatchdogEffect.removeAll dir, WatchdogEffect.logTimeoutError]) := by
  intro deadline dir sigs
  refine ⟨rfl, ?_, ?_⟩ <;>
    · intro h
      cases sigs with
      | nil => simp at h
      | cons s tail =>
        simp only [List.head?_cons, Option.some.injEq] at h
        subst h
        rfl

/-- C4 witness: both race outcomes at a concrete workspace directory. -/
theorem watchdog_race_behaviour_witness :
    watchdogRun "/tmp/req-1" [WatchdogSignal.quit] = [] ∧
    watchdogRun "/tmp/req-1" [WatchdogSignal.timeout] =
      [WatchdogEffect.removeAll "/tmp/req-1", WatchdogEffect.logTimeoutError] :=
  ⟨(watchdog_race_behaviour 900 "/tmp/req-1" [WatchdogSignal.quit]).2.1 rfl,
   (watchdog_race_behaviour 900 "/tmp/req-1" [WatchdogSignal.timeout]).2.2 rfl⟩

/-! ### C5 — the V2 tag gate and the derived push tag -/

/-- C5: under the converted V2 strategy, an event with no validated non-empty
tag makes `HandleRequest` return the benign no-op message with a `nil` error
before any build call (the trace holds no build and no push), and an event
with a validated tag `t` makes the push step run with the derived tag
`t ++ "-soci"`. -/
theorem v2_tag_gate_and_derived_tag :
    (∀ (env : Env) (ev : ECRImageActionEvent),
      (validateEvent ev).violations = [] →
      env.registryInit = Except.ok () →
      env.validateImageDigest = none →
      env.sociIndexVersion = "V2" →
      (validateEvent ev).ctxTag = none →
      HandleRequest env ev =
        { message := "Skipped SOCI index generation for V2 as image has no tag",
          error := none, trace := [Call.registryInit, Call.validateDigest] }) ∧
    (∀ (env : Env) (ev : ECRImageActionEvent) (t dir : String) (d cd : Descriptor),
      (validateEvent ev).violations = [] →
      env.registryInit = Except.ok () →
      env.validateImageDigest = none →
      env.sociIndexVersion = "V2" →
      (validateEvent ev).ctxTag = some t →
      t ≠ "" →
      env.createTempDir = Except.ok dir →
      env.initSociStore = none →
      env.pull = Except.ok d →
      env.artifactsDb = none →
      env.containerdStore = none →
      env.builderNew = none →
      env.convert = Except.ok cd →
      (HandleRequest env ev).trace =
        [Call.registryInit, Call.validateDigest, Call.pull, Call.convert,
         Call.push ev.detail.repositoryName (t ++ "-soci")]) := by
  constructor
  · intro env ev hv hr hi hver htag
    unfold HandleRequest
    simp only [hv, hr, hi, hver, htag, if_true]
  · intro env ev t dir d cd hv hr hi hver htag ht hdir hstore hpull hdb hcs hbn hconv
    unfold HandleRequest
    simp only [hv, hr, hi, hver, htag, if_true]
    rw [if_neg ht]
    unfold afterTagGate buildIndex
    simp only [hdir, hstore, hpull, hdb, hcs, hbn, hver, hconv, if_true]
    cases hp : env.push <;> rfl

/-- C5 witness: the empty-tag event is skipped before any build; the tagged
event (`latest`) pushes under the derived tag `latest-soci`. -/
theorem v2_tag_gate_and_derived_tag_witness :
    HandleRequest envV2 evNoTag =
      { message := "Skipped SOCI index generation for V2 as image has no tag",
        error := none, trace := [Call.registryInit, Call.validateDigest] } ∧
    (HandleRequest envV2 evValid).trace =
      [Call.registryInit, Call.validateDigest, Call.pull, Call.convert,
       Call.push "myrepo" "latest-soci"] :=
  ⟨v2_tag_gate_and_derived_tag.1 envV2 evNoTag (by decide) rfl rfl rfl (by decide),
   v2_tag_gate_and_derived_tag.2 envV2 evValid "latest" "/tmp/req-1"
     { digest := "sha256:img" } { digest := "sha256:converted" }
     (by decide) rfl rfl rfl (by decide) (by decide) rfl rfl rfl rfl rfl rfl rfl⟩

/-! ### C6 — the legacy strategy selects the most recently created record -/

theorem mem_insertByCreatedAt {x r : IndexDescriptorInfo} {l : List IndexDescriptorInfo} :
    x ∈ insertByCreatedAt r l ↔ x = r ∨ x ∈ l := by
  induction l with
  | nil => simp [insertByCreatedAt]
  | cons s rest ih =>
    simp only [insertByCreatedAt]
    split
    · simp [List.mem_cons]
    · simp only [List.mem_cons, ih]
      tauto

theorem mem_sortByCreatedAt {x : IndexDescriptorInfo} {l : List IndexDescriptorInfo} :
    x ∈ sortByCreatedAt l ↔ x ∈ l := by
  induction l with
  | nil => simp [sortByCreatedAt]
  | cons r rest ih => simp [sortByCreatedAt, mem_insertByCreatedAt, ih]

theorem lastOf_mem (x : α) (l : List α) : lastOf x l ∈ x :: l := by
  induction l generalizing x with
  | nil => simp [lastOf]
  | cons y ys ih =>
    rw [show lastOf x (y :: ys) = lastOf y ys from rfl]
    exact List.mem_cons_of_mem x (ih y)

theorem pairwise_insertByCreatedAt {r : IndexDescriptorInfo} {l : List IndexDescriptorInfo}
    (h : List.Pairwise (fun a b => a.createdAt ≤ b.createdAt) l) :
    List.Pairwise (fun a b => a.createdAt ≤ b.createdAt) (insertByCreatedAt r l) := by
  induction l with
  | nil => simp [insertByCreatedAt]
  | cons s rest ih =>
    obtain ⟨hs, hrest⟩ := List.pairwise_cons.mp h
    simp only [insertByCreatedAt]
    split
    · rename_i hlt
      refine List.Pairwise.cons ?_ h
      intro x hx
      rcases List.mem_cons.mp hx with rfl | hx'
      · exact Nat.le_of_lt hlt
      · exact Nat.le_trans (Nat.le_of_lt hlt) (hs x hx')
    · rename_i hnlt
      refine List.Pairwise.cons ?_ (ih hrest)
      intro x hx
      rcases mem_insertByCreatedAt.mp hx with rfl | hx'
      · exact Nat.le_of_not_lt hnlt
      · exact hs x hx'

theorem pairwise_sortByCreatedAt (l : List IndexDescriptorInfo) :
    List.Pairwise (fun a b => a.createdAt ≤ b.createdAt) (sortByCreatedAt l) := by
  induction l with
  | nil => simp [sortByCreatedAt]
  | cons r rest ih => exact pairwise_insertByCreatedAt ih

theorem le_lastOf_of_pairwise :
    ∀ {x : IndexDescriptorInfo} {l : List IndexDescriptorInfo},
      List.Pairwise (fun a b => a.createdAt ≤ b.createdAt) (x :: l) →
      ∀ y ∈ x :: l, y.createdAt ≤ (lastOf x l).createdAt := by
  intro x l
  induction l generalizing x with
  | nil =>
    intro _ y hy
    rcases List.mem_cons.mp hy with rfl | hy'
    · exact Nat.le_refl _
    · cases hy'
  | cons b l' ih =>
    intro h y hy
    have h' : List.Pairwise (fun a b => a.createdAt ≤ b.createdAt) (b :: l') :=
      (List.pairwise_cons.mp h).2
    have hxb : x.createdAt ≤ b.createdAt :=
      (List.pairwise_cons.mp h).1 b (List.mem_cons_self b l')
    rw [show lastOf x (b :: l') = lastOf b l' from rfl]
    rcases List.mem_cons.mp hy with rfl | hy'
    · exact Nat.le_trans hxb (ih h' b (List.mem_cons_self b l'))
    · exact ih h' y hy'

/-- C6: under the legacy V1 strategy, when the metadata database returns a
non-empty record list, `buildIndex` sorts it ascending by creation timestamp
and returns the descriptor of a record whose creation timestamp is maximal —
the most recently created one.  (With two records at timestamps T1 < T2, only
the record at T2 satisfies the maximality conjunct; the witness checks it is
the selected one.) -/
theorem legacy_build_selects_latest_record (env : Env) (recs : List IndexDescriptorInfo)
    (hv2 : env.sociIndexVersion ≠ "V2")
    (hdb : env.artifactsDb = none)
    (hcs : env.containerdStore = none)
    (hbn : env.builderNew = none)
    (hb : env.build = Except.ok ())
    (hg : env.getIndexDescriptorCollection = Except.ok recs)
    (hne : recs ≠ []) :
    ∃ r, r ∈ recs ∧ (buildIndex env).1 = Except.ok r.descriptor ∧
      ∀ x ∈ recs, x.createdAt ≤ r.createdAt := by
  obtain ⟨s, ss, hs⟩ : ∃ s ss, sortByCreatedAt recs = s :: ss := by
    cases hsort : sortByCreatedAt recs with
    | nil =>
      exfalso
      cases recs with
      | nil => exact hne rfl
      | cons a t =>
        have : a ∈ sortByCreatedAt (a :: t) := mem_sortByCreatedAt.mpr (List.mem_cons_self a t)
        rw [hsort] at this
        cases this
    | cons s ss => exact ⟨s, ss, rfl⟩
  refine ⟨lastOf s ss, ?_, ?_, ?_⟩
  · have hmem : lastOf s ss ∈ s :: ss := lastOf_mem s ss
    rw [← hs] at hmem
    exact mem_sortByCreatedAt.mp hmem
  · unfold buildIndex
    simp only [hdb, hcs, hbn, hb, hg, if_neg hv2, hs]
  · intro x hx
    have hx' : x ∈ s :: ss := by
      rw [← hs]
      exact mem_sortByCreatedAt.mpr hx
    have hp : List.Pairwise (fun a b => a.createdAt ≤ b.createdAt) (s :: ss) := by
      rw [← hs]
      exact pairwise_sortByCreatedAt recs
    exact le_lastOf_of_pairwise hp x hx'

/-- C6 witness: with the two records at timestamps 5 < 9, the selected
descriptor is the one created at 9 (`sha256:newer`), and it is maximal. -/
theorem legacy_build_selects_latest_record_witness :
    (buildIndex envTwoRecords).1 = Except.ok { digest := "sha256:newer" } ∧
    ∃ r, r ∈ recsTwo ∧ (buildIndex envTwoRecords).1 = Except.ok r.descriptor ∧
      ∀ x ∈ recsTwo, x.createdAt ≤ r.createdAt :=
  ⟨rfl,
   legacy_build_selects_latest_record envTwoRecords recsTwo
     (by decide) rfl rfl rfl rfl rfl (by decide)⟩

/-! ### C2 — the V1 empty-index condition never reaches the skip path -/

/-- C2 failing input: the V1 builder reports exactly the named empty-index
condition, every earlier step succeeds.  `buildIndex` wraps the builder error
as `"failed to build SOCI index: " ++ err` (Go `fmt.Errorf("...: %w", err)`),
so the handler's string comparison against `ErrEmptyIndex` can never succeed:
`HandleRequest` returns the build-failure message with a non-nil error — a
retryable failure — instead of the benign-skip message with a nil error.  The
push step is indeed not executed. -/
theorem empty_index_reports_build_error_not_skip :
    HandleRequest envEmptyIdx evValid =
      { message := BuildFailedMessage,
        error := some ("failed to build SOCI index: " ++ ErrEmptyIndex),
        trace := [Call.registryInit, Call.validateDigest, Call.pull, Call.buildV1] } ∧
    (HandleRequest envEmptyIdx evValid).message ≠ SkipPushOnEmptyIndexMessage ∧
    (HandleRequest envEmptyIdx evValid).error ≠ none := by
  refine ⟨rfl, ?_, ?_⟩ <;> decide

/-! ### C7 — the digest check is a containment search, with the 32/31 boundary -/

/-- C7 counterexample: a digest that is not of the whole-string
`<algorithm>:<hex(≥32)>` shape (no split at a `:` leaves a hex-only remainder
of length ≥ 32, because of the three trailing `!`), yet the event passes
validation with no violation at all, since the code's check is an unanchored
substring search. -/
theorem digest_grammar_violated_yet_accepted_cex :
    specDigestGrammar ("sha256:" ++ String.mk (List.replicate 32 'a') ++ "!!!").data = false ∧
    (validateEvent evDigestJunk).violations = [] := by
  refine ⟨?_, ?_⟩ <;> decide

/-- C7 (amended): the digest check is an unanchored containment search — a
digest containing no substring matching the pattern fails validation — and at
the boundary a hex portion of exactly 32 characters passes validation while
one of 31 characters fails with the digest violation. -/
theorem digest_check_containment_and_boundary :
    (∀ ev : ECRImageActionEvent, imageDigestMatch ev.detail.imageDigest = false →
      "the event's 'detail.image-digest' must be a valid image digest"
        ∈ (validateEvent ev).violations) ∧
    (validateEvent evDigest32).violations = [] ∧
    (validateEvent evDigest31).violations =
      ["the event's 'detail.image-digest' must be a valid image digest"] := by
  refine ⟨?_, by decide, by decide⟩
  intro ev h
  simp [validateEvent, h]

/-- C7 witness: the 31-hex-character digest contains no match, so its
violation is recorded. -/
theorem digest_check_containment_and_boundary_witness :
    "the event's 'detail.image-digest' must be a valid image digest"
      ∈ (validateEvent evDigest31).violations :=
  digest_check_containment_and_boundary.1 evDigest31 (by decide)

/-! ### C8 — the account check accepts any 12-consecutive-digit run -/

/-- C8 counterexample: a 13-digit account id — not exactly 12 digits — passes
validation with no violation at all, because the unanchored `[0-9]{12}`
search finds a 12-digit run inside it. -/
theorem thirteen_digit_account_accepted_cex :
    accountIdMatch "1234567890123" = true ∧
    (validateEvent evAccount13).violations = [] := by
  refine ⟨?_, ?_⟩ <;> decide

/-- C8 (amended): the account-id check accepts a string exactly when it
contains a run of 12 consecutive decimal digits (so every exactly-12-digit
account id is accepted, but so is any string containing such a run). -/
theorem account_check_is_twelve_digit_run_containment (s : String) :
    accountIdMatch s = true ↔
      ∃ pre run post : List Char,
        s.data = pre ++ run ++ post ∧ run.length = 12 ∧ run.all Char.isDigit = true := by
  unfold accountIdMatch
  generalize s.data = l
  induction l with
  | nil =>
    constructor
    · intro h
      simp [accountSearch] at h
    · rintro ⟨pre, run, post, h, hlen, -⟩
      exfalso
      have hl := congrArg List.length h
      simp [List.length_append] at hl
      omega
  | cons c rest ih =>
    rw [show accountSearch (c :: rest) = (twelveDigitsAt (c :: rest) || accountSearch rest)
          from rfl,
        Bool.or_eq_true]
    constructor
    · rintro (h | h)
      · have h' := (Bool.and_eq_true _ _).mp h
        refine ⟨[], (c :: rest).take 12, (c :: rest).drop 12, by simp, ?_, h'.2⟩
        exact of_decide_eq_true h'.1
      · obtain ⟨pre, run, post, heq, hlen, hall⟩ := ih.mp h
        exact ⟨c :: pre, run, post, by simp [heq], hlen, hall⟩
    · rintro ⟨pre, run, post, heq, hlen, hall⟩
      cases pre with
      | nil =>
        left
        simp only [List.nil_append] at heq
        have htake : (c :: rest).take 12 = run := by
          rw [heq, ← hlen, List.take_left]
        unfold twelveDigitsAt
        rw [htake, hlen, hall]
        decide
      | cons p pre' =>
        right
        apply ih.mpr
        have hrest : rest = pre' ++ run ++ post := by
          have heq' : c :: rest = p :: (pre' ++ run ++ post) := by
            simpa using heq
          exact (List.cons.injEq _ _ _ _ ▸ heq').2
        exact ⟨pre', run, post, hrest, hlen, hall⟩
